import Mathlib

/-!
mcp-gosputils: the tool catalog and the dispatch of `main.go`.

A shallow embedding of `main.go`: the catalog `tools`, `getDefaultDiskPath`,
the five `collect*` functions and `handleToolCall`.

Conventions of the embedding.

* The operating system and the third-party libraries are external: what the
  gopsutil reads, `runtime.GOOS`, `runtime.NumCPU` and `json.Marshal` return
  during one call is collected in a `World` value, an explicit input.
* A Go function returning `(value, error)` that may also hit a run-time panic
  is an `Outcome`: either `returned value err` or `panicked fault`.
* Which collectors a call invokes is recorded, in order, as a list of `Call`.
* `float64` values are only carried around by this file (no arithmetic), so
  they are represented by their IEEE-754 bit pattern.
* Logging (`slog.Info`, `log.Printf`) has no effect on the values returned and
  is left out.
-/

namespace McpGopsutil

/-! ## Go values -/

/-- A `float64`, carried as its 64-bit pattern. -/
structure Float64 where
  bits : Nat
  deriving DecidableEq, Repr

/-- A Go `interface{}` holding decoded JSON or a literal of `main.go`:
`nil`, `bool`, `float64`, `string`, `[]interface{}`, `map[string]interface{}`. -/
inductive GoAny where
  | nil : GoAny
  | bool (b : Bool) : GoAny
  | float64 (f : Float64) : GoAny
  | string (s : String) : GoAny
  | slice (xs : List GoAny) : GoAny
  | map (kvs : List (String × GoAny)) : GoAny
  deriving Repr

/-- A Go `map[string]interface{}` as an association list. -/
abbrev GoMap := List (String × GoAny)

/-- Go map indexing `m[key]`: the stored value, or the zero value `nil` of
`interface{}` when the key is absent. -/
def GoMap.index (m : GoMap) (key : String) : GoAny :=
  match m.lookup key with
  | some v => v
  | none => GoAny.nil

/-- The comma-ok type assertion `v.(string)`: the string and `true` when `v`
holds a string, the zero value `""` and `false` otherwise. -/
def GoAny.assertString : GoAny → String × Bool
  | GoAny.string s => (s, true)
  | _ => ("", false)

/-- A metric stored in a collector's result map. -/
inductive Metric where
  | str (s : String)
  | uint64 (n : Nat)
  | int (i : Int)
  | float64 (f : Float64)
  deriving DecidableEq, Repr

/-- The field mapping built by a collector (a `map[string]interface{}` literal). -/
abbrev Fields := List (String × Metric)

/-- An `error` returned by a gopsutil read, identified by its `Error()` text. -/
structure OSError where
  msg : String
  deriving DecidableEq, Repr

/-- A run-time panic. -/
inductive Fault where
  | indexOutOfRange (index len : Nat)
  deriving DecidableEq, Repr

/-- What a call of a Go function with results `(α, error)` does: it returns a
value and a possibly-nil error of type `ε`, or it panics. -/
inductive Outcome (α ε : Type) where
  | returned (val : α) (err : Option ε)
  | panicked (fault : Fault)
  deriving DecidableEq, Repr

/-! ## gopsutil records (the fields `main.go` reads) -/

/-- The fields of `host.InfoStat` read by `collectHostInfo`. -/
structure InfoStat where
  Hostname : String
  OS : String
  Platform : String
  PlatformVersion : String
  KernelVersion : String
  BootTime : Nat
  deriving DecidableEq, Repr

/-- The fields of `mem.VirtualMemoryStat` read by `collectMemoryInfo`. -/
structure VirtualMemoryStat where
  Total : Nat
  Available : Nat
  Used : Nat
  UsedPercent : Float64
  deriving DecidableEq, Repr

/-- The fields of `disk.UsageStat` read by `collectDiskUsage`. -/
structure UsageStat where
  Total : Nat
  Free : Nat
  Used : Nat
  UsedPercent : Float64
  Fstype : String
  deriving DecidableEq, Repr

/-- The fields of `net.IOCountersStat` read by `collectNetworkStats`. -/
structure IOCountersStat where
  BytesSent : Nat
  BytesRecv : Nat
  PacketsSent : Nat
  PacketsRecv : Nat
  deriving DecidableEq, Repr

/-- Everything outside `main.go` that one call of `handleToolCall` reads.

Reads that return a pointer (`host.Info`, `mem.VirtualMemory`, `disk.Usage`)
give either an error or a record. Reads that return a slice (`cpu.Percent`,
`net.IOCounters`) give the slice together with a possibly-nil error, so that a
read reporting no error with an empty slice is an input like any other. A
library call that itself panics, or a pointer read returning nil with a nil
error, is not represented. -/
structure World where
  /-- The value of `runtime.GOOS`. -/
  GOOS : String
  /-- The value of `runtime.NumCPU()`. -/
  NumCPU : Int
  /-- The result of `host.Info()`. -/
  hostInfo : Except OSError InfoStat
  /-- The result of `cpu.Percent(0, false)`. -/
  cpuPercent : List Float64 × Option OSError
  /-- The result of `mem.VirtualMemory()`. -/
  virtualMemory : Except OSError VirtualMemoryStat
  /-- The result of `disk.Usage(path)`. -/
  diskUsage : String → Except OSError UsageStat
  /-- The result of `net.IOCounters(false)`. -/
  netIOCounters : List IOCountersStat × Option OSError
  /-- The library function `json.Marshal` on a collector result (`none` is the nil map):
  the bytes, as a string, and the error. -/
  jsonMarshal : Option Fields → String × Option String

/-! ## The catalog -/

/-- The type `mcp.ToolInputSchema` (fields set in `main.go`). -/
structure ToolInputSchema where
  Type_ : String
  Properties : GoMap
  Required : List String
  deriving Repr

/-- The type `mcp.Tool` (fields set in `main.go`). -/
structure Tool where
  Name : String
  Description : String
  InputSchema : ToolInputSchema
  deriving Repr

/-- `getDefaultDiskPath` (main.go:75-80). -/
def getDefaultDiskPath (GOOS : String) : String :=
  if GOOS = "windows" then "C:" else "/"

/-- The package variable `tools` (main.go:22-73), initialised once at start-up;
`getDefaultDiskPath()` in its initialiser reads `runtime.GOOS`. The last entry
leaves `Required` unset (nil), which is the empty list here. -/
def tools (GOOS : String) : List Tool :=
  [ { Name := "get_host_info"
      Description := "Get host information (hostname, OS, platform, boot time)"
      InputSchema := { Type_ := "object", Properties := [], Required := [] } },
    { Name := "get_cpu_info"
      Description := "Get CPU usage percentage and core count"
      InputSchema := { Type_ := "object", Properties := [], Required := [] } },
    { Name := "get_memory_info"
      Description := "Get memory usage (total, available, used, percent)"
      InputSchema := { Type_ := "object", Properties := [], Required := [] } },
    { Name := "get_disk_usage"
      Description := "Get disk usage for root partition (or C: on Windows)"
      InputSchema :=
        { Type_ := "object"
          Properties :=
            [("path", GoAny.map
              [("type", GoAny.string "string"),
               ("description", GoAny.string "Filesystem path to check (default: / or C:)"),
               ("default", GoAny.string (getDefaultDiskPath GOOS))])]
          Required := ["path"] } },
    { Name := "get_network_stats"
      Description := "Get basic network I/O statistics (bytes sent/received)"
      InputSchema := { Type_ := "object", Properties := [], Required := [] } } ]

/-- The names of the catalog, in order. -/
def toolNames (GOOS : String) : List String :=
  (tools GOOS).map Tool.Name

/-- The input schema the catalog declares for `name`, if `name` is in it. -/
def schemaOf (GOOS : String) (name : String) : Option ToolInputSchema :=
  ((tools GOOS).find? (fun t => t.Name == name)).map Tool.InputSchema

/-- The argument keys the catalog declares for `name` (the keys of the schema's
`Properties`); none for a name outside the catalog. -/
def declaredKeys (GOOS : String) (name : String) : List String :=
  match schemaOf GOOS name with
  | some s => s.Properties.map Prod.fst
  | none => []

/-- The value the catalog declares under `"default"` for the property `key` of
the tool `name`. -/
def schemaDefault (GOOS : String) (name key : String) : Option GoAny :=
  match schemaOf GOOS name with
  | none => none
  | some schema =>
    match schema.Properties.lookup key with
    | some (GoAny.map kvs) => kvs.lookup "default"
    | _ => none

/-! ## The collectors -/

/-- `collectHostInfo` (main.go:113-128). -/
def collectHostInfo (w : World) : Outcome (Option Fields) OSError :=
  match w.hostInfo with
  | Except.error err => Outcome.returned none (some err)
  | Except.ok info =>
    Outcome.returned (some
      [("hostname", Metric.str info.Hostname),
       ("os", Metric.str info.OS),
       ("platform", Metric.str info.Platform),
       ("platform_version", Metric.str info.PlatformVersion),
       ("kernel_version", Metric.str info.KernelVersion),
       ("boot_time", Metric.uint64 info.BootTime)]) none

/-- `collectCPUInfo` (main.go:130-140). `percent[0]` is evaluated without a
length check: on an empty slice it panics. -/
def collectCPUInfo (w : World) : Outcome (Option Fields) OSError :=
  match w.cpuPercent with
  | (_, some err) => Outcome.returned none (some err)
  | (percent, none) =>
    let cores := w.NumCPU
    match percent with
    | [] => Outcome.panicked (Fault.indexOutOfRange 0 0)
    | p0 :: _ =>
      Outcome.returned (some
        [("cpu_percent", Metric.float64 p0),
         ("cpu_cores", Metric.int cores)]) none

/-- `collectMemoryInfo` (main.go:142-153). -/
def collectMemoryInfo (w : World) : Outcome (Option Fields) OSError :=
  match w.virtualMemory with
  | Except.error err => Outcome.returned none (some err)
  | Except.ok vmem =>
    Outcome.returned (some
      [("total_bytes", Metric.uint64 vmem.Total),
       ("available_bytes", Metric.uint64 vmem.Available),
       ("used_bytes", Metric.uint64 vmem.Used),
       ("used_percent", Metric.float64 vmem.UsedPercent)]) none

/-- `collectDiskUsage` (main.go:155-168). -/
def collectDiskUsage (w : World) (path : String) : Outcome (Option Fields) OSError :=
  match w.diskUsage path with
  | Except.error err => Outcome.returned none (some err)
  | Except.ok usage =>
    Outcome.returned (some
      [("path", Metric.str path),
       ("total_bytes", Metric.uint64 usage.Total),
       ("free_bytes", Metric.uint64 usage.Free),
       ("used_bytes", Metric.uint64 usage.Used),
       ("used_percent", Metric.float64 usage.UsedPercent),
       ("filesystem_type", Metric.str usage.Fstype)]) none

/-- `collectNetworkStats` (main.go:170-182). The guard
`err != nil || len(counters) == 0` returns `nil, err`; when only its second
disjunct holds, `err` is nil. -/
def collectNetworkStats (w : World) : Outcome (Option Fields) OSError :=
  let (counters, err) := w.netIOCounters
  if err.isSome || counters.length = 0 then
    Outcome.returned none err
  else
    match counters with
    | [] => Outcome.panicked (Fault.indexOutOfRange 0 0)
    | c :: _ =>
      Outcome.returned (some
        [("bytes_sent", Metric.uint64 c.BytesSent),
         ("bytes_recv", Metric.uint64 c.BytesRecv),
         ("packets_sent", Metric.uint64 c.PacketsSent),
         ("packets_recv", Metric.uint64 c.PacketsRecv)]) none

/-! ## The handler -/

/-- One content item of a tool result; `main.go` only produces text items. -/
inductive Content where
  | TextContent (text : String)
  deriving DecidableEq, Repr

/-- The type `mcp.CallToolResult`. -/
structure CallToolResult where
  Content : List Content
  IsError : Bool
  deriving DecidableEq, Repr

/-- The literal `&mcp.CallToolResult{}`: every field at its zero value. -/
def CallToolResult.empty : CallToolResult :=
  { Content := [], IsError := false }

/-- The library constructor `mcp.NewToolResultText`: one text item. -/
def NewToolResultText (text : String) : CallToolResult :=
  { Content := [Content.TextContent text], IsError := false }

/-- The errors `handleToolCall` returns. -/
inductive ToolError where
  /-- The library sentinel `mcp.ErrInternalError`. -/
  | ErrInternalError
  /-- The value built by `fmt.Errorf` with a `%w` verb: its message and the
  error it wraps. -/
  | wrapError (msg : String) (err : OSError)
  deriving DecidableEq, Repr

/-- The call `fmt.Errorf("failed to collect %s: %w", name, err)` (main.go:107). -/
def Errorf (name : String) (err : OSError) : ToolError :=
  ToolError.wrapError ("failed to collect " ++ name ++ ": " ++ err.msg) err

/-- The type `mcp.CallToolRequest`: `Params.Name` and the decoded argument map
returned by `GetArguments()`. -/
structure CallToolRequest where
  Name : String
  Arguments : GoMap
  deriving Repr

/-- An invocation of one of the five collectors, with its input. -/
inductive Call where
  | collectHostInfo
  | collectCPUInfo
  | collectMemoryInfo
  | collectDiskUsage (path : String)
  | collectNetworkStats
  deriving DecidableEq, Repr

/-- A run of `handleToolCall`: the collectors invoked, in order, and how the
call ended. -/
structure Run where
  calls : List Call
  outcome : Outcome CallToolResult ToolError
  deriving DecidableEq, Repr

/-- The path `handleToolCall` computes for `get_disk_usage` (main.go:95-98). -/
def diskPathArg (w : World) (request : CallToolRequest) : String :=
  let path := getDefaultDiskPath w.GOOS
  let (p, ok) := (request.Arguments.index "path").assertString
  if ok && p != "" then p else path

/-- The `switch name` of `handleToolCall` (main.go:87-104): the collector it
invokes and what that collector does, or `none` on the `default` branch. -/
def switchName (w : World) (request : CallToolRequest) :
    Option (Call × Outcome (Option Fields) OSError) :=
  let name := request.Name
  if name = "get_host_info" then
    some (Call.collectHostInfo, collectHostInfo w)
  else if name = "get_cpu_info" then
    some (Call.collectCPUInfo, collectCPUInfo w)
  else if name = "get_memory_info" then
    some (Call.collectMemoryInfo, collectMemoryInfo w)
  else if name = "get_disk_usage" then
    let path := diskPathArg w request
    some (Call.collectDiskUsage path, collectDiskUsage w path)
  else if name = "get_network_stats" then
    some (Call.collectNetworkStats, collectNetworkStats w)
  else
    none

/-- `handleToolCall` (main.go:82-111). -/
def handleToolCall (w : World) (request : CallToolRequest) : Run :=
  let name := request.Name
  match switchName w request with
  | none =>
    { calls := [], outcome := Outcome.returned CallToolResult.empty (some ToolError.ErrInternalError) }
  | some (call, Outcome.panicked fault) =>
    { calls := [call], outcome := Outcome.panicked fault }
  | some (call, Outcome.returned result err) =>
    match err with
    | some e =>
      { calls := [call], outcome := Outcome.returned CallToolResult.empty (some (Errorf name e)) }
    | none =>
      let data := (w.jsonMarshal result).1
      { calls := [call], outcome := Outcome.returned (NewToolResultText data) none }

/-! ## Example worlds -/

/-- A stand-in for `json.Marshal` in the example worlds: the nil map encodes as
`null`, as in `encoding/json`; a non-nil map is rendered by its keys. -/
def sampleMarshal : Option Fields → String × Option String
  | none => ("null", none)
  | some fields => (String.intercalate "," (fields.map Prod.fst), none)

/-- A Linux host on which every read succeeds, except `disk.Usage` on paths
other than the root. -/
def linuxWorld : World :=
  { GOOS := "linux"
    NumCPU := 8
    hostInfo := Except.ok
      { Hostname := "box", OS := "linux", Platform := "debian", PlatformVersion := "12",
        KernelVersion := "6.1.0", BootTime := 1700000000 }
    cpuPercent := ([Float64.mk 4623000000000000000], none)
    virtualMemory := Except.ok
      { Total := 17179869184, Available := 8589934592, Used := 8589934592,
        UsedPercent := Float64.mk 4632233691727265792 }
    diskUsage := fun path =>
      if path = "/" then
        Except.ok { Total := 1000, Free := 400, Used := 600,
                    UsedPercent := Float64.mk 4633641066610819072, Fstype := "ext4" }
      else Except.error (OSError.mk "no such file or directory")
    netIOCounters := ([{ BytesSent := 10, BytesRecv := 20, PacketsSent := 1, PacketsRecv := 2 }], none)
    jsonMarshal := sampleMarshal }

/-- The Linux host when `cpu.Percent(0, false)` reports no error and no sample. -/
def noCPUSampleWorld : World :=
  { linuxWorld with cpuPercent := ([], none) }

/-- The Linux host when `net.IOCounters(false)` reports no error and no counter. -/
def noInterfaceWorld : World :=
  { linuxWorld with netIOCounters := ([], none) }

/-- The Linux host without any network interface, as gopsutil reports it for
`pernic = false`: one aggregate counter, all zero, and no error. -/
def zeroCounterWorld : World :=
  { linuxWorld with
    netIOCounters := ([{ BytesSent := 0, BytesRecv := 0, PacketsSent := 0, PacketsRecv := 0 }], none) }

/-- The five names the `switch` of `handleToolCall` has a `case` for. -/
def caseNames : List String :=
  ["get_host_info", "get_cpu_info", "get_memory_info", "get_disk_usage", "get_network_stats"]

/-! ## Basic facts -/

theorem toolNames_eq (GOOS : String) : toolNames GOOS = caseNames := rfl

theorem switchName_none_iff (w : World) (request : CallToolRequest) :
    switchName w request = none ↔ request.Name ∉ caseNames := by
  simp only [switchName, caseNames, List.mem_cons, List.mem_singleton, List.not_mem_nil, or_false,
    not_or]
  constructor
  · intro h
    split_ifs at h with h1 h2 h3 h4 h5
    exact ⟨h1, h2, h3, h4, h5⟩
  · rintro ⟨h1, h2, h3, h4, h5⟩
    simp [h1, h2, h3, h4, h5]

theorem switchName_host (w : World) (request : CallToolRequest)
    (h : request.Name = "get_host_info") :
    switchName w request = some (Call.collectHostInfo, collectHostInfo w) := by
  simp [switchName, h]

theorem switchName_cpu (w : World) (request : CallToolRequest)
    (h : request.Name = "get_cpu_info") :
    switchName w request = some (Call.collectCPUInfo, collectCPUInfo w) := by
  simp [switchName, h]

theorem switchName_memory (w : World) (request : CallToolRequest)
    (h : request.Name = "get_memory_info") :
    switchName w request = some (Call.collectMemoryInfo, collectMemoryInfo w) := by
  simp [switchName, h]

theorem switchName_disk (w : World) (request : CallToolRequest)
    (h : request.Name = "get_disk_usage") :
    switchName w request
      = some (Call.collectDiskUsage (diskPathArg w request),
              collectDiskUsage w (diskPathArg w request)) := by
  simp [switchName, h]

theorem switchName_network (w : World) (request : CallToolRequest)
    (h : request.Name = "get_network_stats") :
    switchName w request = some (Call.collectNetworkStats, collectNetworkStats w) := by
  simp [switchName, h]

/-- Whatever the `switch` selects, the handler records exactly that one call. -/
theorem calls_of_switchName_some (w : World) (request : CallToolRequest) (call : Call)
    (out : Outcome (Option Fields) OSError) (h : switchName w request = some (call, out)) :
    (handleToolCall w request).calls = [call] := by
  unfold handleToolCall
  rw [h]
  cases out with
  | panicked fault => rfl
  | returned result err => cases err <;> rfl

theorem handleToolCall_of_switchName_none (w : World) (request : CallToolRequest)
    (h : switchName w request = none) :
    handleToolCall w request
      = { calls := []
          outcome := Outcome.returned CallToolResult.empty (some ToolError.ErrInternalError) } := by
  unfold handleToolCall
  rw [h]

/-- A string occurs in `prefix ++ s ++ suffix`. -/
theorem infix_append_mid (a s b : String) : s.data <:+: (a ++ s ++ b).data := by
  refine ⟨a.data, b.data, ?_⟩
  simp [String.data_append]

theorem diskPathArg_absent (w : World) (request : CallToolRequest)
    (h : request.Arguments.lookup "path" = none) :
    diskPathArg w request = getDefaultDiskPath w.GOOS := by
  simp [diskPathArg, GoMap.index, h, GoAny.assertString]

theorem diskPathArg_string (w : World) (request : CallToolRequest) (p : String)
    (h : request.Arguments.lookup "path" = some (GoAny.string p)) (hp : p ≠ "") :
    diskPathArg w request = p := by
  simp [diskPathArg, GoMap.index, h, GoAny.assertString, hp]

theorem diskPathArg_malformed (w : World) (request : CallToolRequest) (v : GoAny)
    (h : request.Arguments.lookup "path" = some v)
    (hv : (∀ s : String, v ≠ GoAny.string s) ∨ v = GoAny.string "") :
    diskPathArg w request = getDefaultDiskPath w.GOOS := by
  rcases hv with hv | hv
  · cases v with
    | string s => exact absurd rfl (hv s)
    | nil => simp [diskPathArg, GoMap.index, h, GoAny.assertString]
    | bool b => simp [diskPathArg, GoMap.index, h, GoAny.assertString]
    | float64 f => simp [diskPathArg, GoMap.index, h, GoAny.assertString]
    | slice xs => simp [diskPathArg, GoMap.index, h, GoAny.assertString]
    | map kvs => simp [diskPathArg, GoMap.index, h, GoAny.assertString]
  · subst hv
    simp [diskPathArg, GoMap.index, h, GoAny.assertString]

/-- The path only depends on what the argument map holds under `"path"`. -/
theorem diskPathArg_congr (w : World) (r1 r2 : CallToolRequest)
    (h : r1.Arguments.lookup "path" = r2.Arguments.lookup "path") :
    diskPathArg w r1 = diskPathArg w r2 := by
  simp [diskPathArg, GoMap.index, h]

/-- Removing entries under other keys leaves a lookup unchanged. -/
theorem lookup_filter_keep (m : GoMap) (keep : String → Bool) (k : String)
    (hk : keep k = true) :
    (m.filter (fun kv => keep kv.1)).lookup k = m.lookup k := by
  induction m with
  | nil => rfl
  | cons kv rest ih =>
    obtain ⟨k1, v1⟩ := kv
    by_cases hkk : k = k1
    · subst hkk
      simp [List.filter_cons, hk, List.lookup_cons]
    · have hne : (k == k1) = false := by simpa using hkk
      by_cases hk1 : keep k1 = true
      · simp [List.filter_cons, hk1, List.lookup_cons, hne, ih]
      · simp [List.filter_cons, hk1, List.lookup_cons, hne, ih]

/-- After removing the entries under a key, the key is absent. -/
theorem lookup_filter_ne (m : GoMap) (k : String) :
    (m.filter (fun kv => kv.1 != k)).lookup k = none := by
  induction m with
  | nil => rfl
  | cons kv rest ih =>
    obtain ⟨k1, v1⟩ := kv
    by_cases hkk : k1 = k
    · simp [List.filter_cons, hkk, ih]
    · have hne : (k == k1) = false := by
        simpa using fun h => hkk h.symm
      simp [List.filter_cons, hkk, List.lookup_cons, hne, ih]

/-- The handler reads a request through its name and the `switch` only. -/
theorem handleToolCall_congr (w : World) (r1 r2 : CallToolRequest)
    (hname : r1.Name = r2.Name) (hs : switchName w r1 = switchName w r2) :
    handleToolCall w r1 = handleToolCall w r2 := by
  unfold handleToolCall
  rw [hs, hname]

theorem declaredKeys_disk (GOOS : String) : declaredKeys GOOS "get_disk_usage" = ["path"] := rfl

/-- The catalog declares no argument key for any other name. -/
theorem declaredKeys_other (GOOS : String) (name : String) (h : name ≠ "get_disk_usage") :
    declaredKeys GOOS name = [] := by
  by_cases h1 : name = "get_host_info"
  · subst h1; rfl
  by_cases h2 : name = "get_cpu_info"
  · subst h2; rfl
  by_cases h3 : name = "get_memory_info"
  · subst h3; rfl
  by_cases h5 : name = "get_network_stats"
  · subst h5; rfl
  have e1 : ("get_host_info" == name) = false := by simpa using fun e => h1 e.symm
  have e2 : ("get_cpu_info" == name) = false := by simpa using fun e => h2 e.symm
  have e3 : ("get_memory_info" == name) = false := by simpa using fun e => h3 e.symm
  have e4 : ("get_disk_usage" == name) = false := by simpa using fun e => h e.symm
  have e5 : ("get_network_stats" == name) = false := by simpa using fun e => h5 e.symm
  simp only [declaredKeys, schemaOf, tools, List.find?_cons, List.find?_nil, e1, e2, e3, e4, e5,
    Option.map_none']

/-- The sentinel `mcp.ErrInternalError` is returned on the `default` branch only. -/
theorem name_unknown_of_ErrInternalError (w : World) (request : CallToolRequest)
    (result : CallToolResult)
    (h : (handleToolCall w request).outcome
      = Outcome.returned result (some ToolError.ErrInternalError)) :
    request.Name ∉ caseNames := by
  cases hsw : switchName w request with
  | none => exact (switchName_none_iff w request).1 hsw
  | some co =>
    obtain ⟨call, out⟩ := co
    unfold handleToolCall at h
    rw [hsw] at h
    cases out with
    | panicked fault => exact Outcome.noConfusion h
    | returned res err =>
      cases err with
      | none => simp at h
      | some e => simp [Errorf] at h

/-! ## C1: names outside the catalog -/

/-- C1. For every request whose name is none of the five catalog names (exact
string comparison), whatever its arguments and whatever the OS would report,
`handleToolCall` invokes no collector and returns the empty result (no content)
together with a non-nil error: the sentinel `mcp.ErrInternalError` of the
`default` branch, an error that no request naming a catalog entry ever gets
(so it designates the unknown name). -/
theorem handleToolCall_unknown_name (w : World) (request : CallToolRequest)
    (h : request.Name ∉
      ["get_host_info", "get_cpu_info", "get_memory_info", "get_disk_usage", "get_network_stats"]) :
    (handleToolCall w request).calls = [] ∧
    (handleToolCall w request).outcome
      = Outcome.returned CallToolResult.empty (some ToolError.ErrInternalError) ∧
    CallToolResult.empty.Content = [] ∧
    ∀ (w2 : World) (known : CallToolRequest) (result : CallToolResult),
      known.Name ∈
        ["get_host_info", "get_cpu_info", "get_memory_info", "get_disk_usage", "get_network_stats"] →
      (handleToolCall w2 known).outcome
        ≠ Outcome.returned result (some ToolError.ErrInternalError) := by
  have hs : switchName w request = none := (switchName_none_iff w request).2 h
  rw [handleToolCall_of_switchName_none w request hs]
  refine ⟨rfl, rfl, rfl, ?_⟩
  intro w2 known result hk hout
  exact name_unknown_of_ErrInternalError w2 known result hout hk

/-- The claim C1 at Scenario C of the specification: `bogus_tool`. -/
theorem handleToolCall_unknown_name_witness :
    ("bogus_tool" ∉
      ["get_host_info", "get_cpu_info", "get_memory_info", "get_disk_usage", "get_network_stats"]) ∧
    (handleToolCall linuxWorld { Name := "bogus_tool", Arguments := [("path", GoAny.string "/")] }).calls = [] ∧
    (handleToolCall linuxWorld { Name := "bogus_tool", Arguments := [("path", GoAny.string "/")] }).outcome
      = Outcome.returned CallToolResult.empty (some ToolError.ErrInternalError) :=
  have h := handleToolCall_unknown_name linuxWorld
    { Name := "bogus_tool", Arguments := [("path", GoAny.string "/")] } (by decide)
  ⟨by decide, h.1, h.2.1⟩

/-! ## C2: a failing collector -/

/-- C2. For every request whose name is a catalog name and every outcome in
which the collector the switch invokes for it returns a non-nil error `e`,
`handleToolCall` returns the empty result (no payload) and a non-nil error that
wraps `e` and whose message contains both the capability name and the message
of `e`. -/
theorem handleToolCall_collector_error (w : World) (request : CallToolRequest) (call : Call)
    (result : Option Fields) (e : OSError)
    (h : switchName w request = some (call, Outcome.returned result (some e))) :
    request.Name ∈ toolNames w.GOOS ∧
    ∃ msg : String,
      (handleToolCall w request).outcome
        = Outcome.returned CallToolResult.empty (some (ToolError.wrapError msg e)) ∧
      request.Name.data <:+: msg.data ∧
      e.msg.data <:+: msg.data ∧
      CallToolResult.empty.Content = [] := by
  constructor
  · rw [toolNames_eq]
    by_contra hn
    rw [(switchName_none_iff w request).2 hn] at h
    exact Option.noConfusion h
  · refine ⟨"failed to collect " ++ request.Name ++ ": " ++ e.msg, ?_, ?_, ?_, rfl⟩
    · unfold handleToolCall
      rw [h]
      rfl
    · have := infix_append_mid "failed to collect " request.Name (": " ++ e.msg)
      simpa [String.append_assoc] using this
    · have := infix_append_mid ("failed to collect " ++ request.Name ++ ": ") e.msg ""
      simpa using this

/-- The claim C2 at Scenario B of the specification: `get_disk_usage` on a path
that `disk.Usage` rejects. -/
theorem handleToolCall_collector_error_witness :
    switchName linuxWorld { Name := "get_disk_usage", Arguments := [("path", GoAny.string "/nonexistent")] }
      = some (Call.collectDiskUsage "/nonexistent",
              Outcome.returned none (some (OSError.mk "no such file or directory"))) ∧
    ("get_disk_usage" ∈ toolNames linuxWorld.GOOS ∧
     ∃ msg : String,
      (handleToolCall linuxWorld
          { Name := "get_disk_usage", Arguments := [("path", GoAny.string "/nonexistent")] }).outcome
        = Outcome.returned CallToolResult.empty
            (some (ToolError.wrapError msg (OSError.mk "no such file or directory"))) ∧
      "get_disk_usage".data <:+: msg.data ∧
      "no such file or directory".data <:+: msg.data ∧
      CallToolResult.empty.Content = []) :=
  ⟨by decide,
   handleToolCall_collector_error linuxWorld
     { Name := "get_disk_usage", Arguments := [("path", GoAny.string "/nonexistent")] }
     (Call.collectDiskUsage "/nonexistent") none (OSError.mk "no such file or directory")
     (by decide)⟩

/-! ## C3: a network read that reports no error -/

/-- C3 (as amended). For every `get_network_stats` request, `handleToolCall`
invokes `collectNetworkStats` once, and whether it ends in an error is decided
by the error of `net.IOCounters(false)` alone:

* no error and zero counters: the guard returns the nil mapping with a nil
  error, and the handler returns a successful result, one text item holding
  the encoding of the nil mapping, with a nil error;
* no error and at least one counter: a successful result holding the encoding
  of the four fields of the first counter, with a nil error;
* an error `e`: the empty result and the error built by `fmt.Errorf` from the
  name `get_network_stats` and `e`. -/
theorem handleToolCall_network_outcome (w : World) (request : CallToolRequest)
    (hn : request.Name = "get_network_stats") :
    (w.netIOCounters = ([], none) →
      handleToolCall w request
        = { calls := [Call.collectNetworkStats]
            outcome := Outcome.returned (NewToolResultText (w.jsonMarshal none).1) none }) ∧
    (∀ (c : IOCountersStat) (rest : List IOCountersStat), w.netIOCounters = (c :: rest, none) →
      handleToolCall w request
        = { calls := [Call.collectNetworkStats]
            outcome := Outcome.returned (NewToolResultText (w.jsonMarshal (some
              [("bytes_sent", Metric.uint64 c.BytesSent),
               ("bytes_recv", Metric.uint64 c.BytesRecv),
               ("packets_sent", Metric.uint64 c.PacketsSent),
               ("packets_recv", Metric.uint64 c.PacketsRecv)])).1) none }) ∧
    (∀ (counters : List IOCountersStat) (e : OSError), w.netIOCounters = (counters, some e) →
      handleToolCall w request
        = { calls := [Call.collectNetworkStats]
            outcome := Outcome.returned CallToolResult.empty
              (some (Errorf "get_network_stats" e)) }) := by
  refine ⟨?_, ?_, ?_⟩
  · intro hc
    have hcol : collectNetworkStats w = Outcome.returned none none := by
      simp [collectNetworkStats, hc]
    unfold handleToolCall
    rw [switchName_network w request hn, hcol]
  · intro c rest hc
    have hcol : collectNetworkStats w = Outcome.returned (some
        [("bytes_sent", Metric.uint64 c.BytesSent),
         ("bytes_recv", Metric.uint64 c.BytesRecv),
         ("packets_sent", Metric.uint64 c.PacketsSent),
         ("packets_recv", Metric.uint64 c.PacketsRecv)]) none := by
      simp [collectNetworkStats, hc]
    unfold handleToolCall
    rw [switchName_network w request hn, hcol]
  · intro counters e hc
    have hcol : collectNetworkStats w = Outcome.returned none (some e) := by
      simp [collectNetworkStats, hc]
    unfold handleToolCall
    rw [switchName_network w request hn, hcol, hn]

/-- The amended claim C3 on a read with no error and no counter, and on a read
that reports an error. -/
theorem handleToolCall_network_outcome_witness :
    "get_network_stats" = "get_network_stats" ∧
    handleToolCall noInterfaceWorld { Name := "get_network_stats", Arguments := [] }
      = { calls := [Call.collectNetworkStats]
          outcome := Outcome.returned (NewToolResultText (noInterfaceWorld.jsonMarshal none).1) none } ∧
    handleToolCall
        { linuxWorld with netIOCounters := ([], some (OSError.mk "permission denied")) }
        { Name := "get_network_stats", Arguments := [] }
      = { calls := [Call.collectNetworkStats]
          outcome := Outcome.returned CallToolResult.empty
            (some (Errorf "get_network_stats" (OSError.mk "permission denied"))) } :=
  ⟨rfl,
   (handleToolCall_network_outcome noInterfaceWorld
      { Name := "get_network_stats", Arguments := [] } rfl).1 rfl,
   (handleToolCall_network_outcome
      { linuxWorld with netIOCounters := ([], some (OSError.mk "permission denied")) }
      { Name := "get_network_stats", Arguments := [] } rfl).2.2
      [] (OSError.mk "permission denied") rfl⟩

/-- C3 as stated fails on the code. On the input the claim names, a counter read
with no error and zero counters, the request succeeds with the text `null` and
no error is returned. On a host without interfaces as the library reports it,
one all-zero aggregate counter, the request succeeds too, with four zero
fields. -/
theorem handleToolCall_network_no_counters_succeeds :
    (noInterfaceWorld.netIOCounters = ([], none) ∧
     handleToolCall noInterfaceWorld { Name := "get_network_stats", Arguments := [] }
       = { calls := [Call.collectNetworkStats]
           outcome := Outcome.returned (NewToolResultText "null") none } ∧
     ¬ ∃ (result : CallToolResult) (e : ToolError),
        (handleToolCall noInterfaceWorld { Name := "get_network_stats", Arguments := [] }).outcome
          = Outcome.returned result (some e)) ∧
    (collectNetworkStats zeroCounterWorld
       = Outcome.returned (some
          [("bytes_sent", Metric.uint64 0), ("bytes_recv", Metric.uint64 0),
           ("packets_sent", Metric.uint64 0), ("packets_recv", Metric.uint64 0)]) none ∧
     ¬ ∃ (result : CallToolResult) (e : ToolError),
        (handleToolCall zeroCounterWorld { Name := "get_network_stats", Arguments := [] }).outcome
          = Outcome.returned result (some e)) := by
  have h1 : handleToolCall noInterfaceWorld { Name := "get_network_stats", Arguments := [] }
      = { calls := [Call.collectNetworkStats]
          outcome := Outcome.returned (NewToolResultText "null") none } := by decide
  have h2 : (handleToolCall zeroCounterWorld { Name := "get_network_stats", Arguments := [] }).outcome
      = Outcome.returned
          (NewToolResultText "bytes_sent,bytes_recv,packets_sent,packets_recv") none := by decide
  refine ⟨⟨rfl, h1, ?_⟩, by decide, ?_⟩
  · rintro ⟨result, e, h⟩
    rw [h1] at h
    simp at h
  · rintro ⟨result, e, h⟩
    rw [h2] at h
    simp at h

/-! ## C4, C5, C6: the path of `get_disk_usage` -/

/-- C4. For every `get_disk_usage` request whose arguments have no `"path"`
key, `collectDiskUsage` is invoked (once) with the platform default path; that
path is `"C:"` when the OS family is `"windows"` and `"/"` for every other OS
family, and it is the value declared as `"default"` for `"path"` in the
`get_disk_usage` input schema of the catalog. -/
theorem handleToolCall_disk_path_omitted (w : World) (request : CallToolRequest)
    (hn : request.Name = "get_disk_usage") (hp : request.Arguments.lookup "path" = none) :
    (handleToolCall w request).calls = [Call.collectDiskUsage (getDefaultDiskPath w.GOOS)] ∧
    (w.GOOS = "windows" → getDefaultDiskPath w.GOOS = "C:") ∧
    (w.GOOS ≠ "windows" → getDefaultDiskPath w.GOOS = "/") ∧
    schemaDefault w.GOOS "get_disk_usage" "path"
      = some (GoAny.string (getDefaultDiskPath w.GOOS)) := by
  refine ⟨?_, ?_, ?_, rfl⟩
  · rw [calls_of_switchName_some w request _ _ (switchName_disk w request hn),
      diskPathArg_absent w request hp]
  · intro h
    simp [getDefaultDiskPath, h]
  · intro h
    simp [getDefaultDiskPath, h]

/-- The claim C4 on a Linux host, with an undeclared argument present. -/
theorem handleToolCall_disk_path_omitted_witness :
    ("get_disk_usage" = "get_disk_usage" ∧
      List.lookup "path" [("verbose", GoAny.bool true)] = none) ∧
    (handleToolCall linuxWorld
        { Name := "get_disk_usage", Arguments := [("verbose", GoAny.bool true)] }).calls
      = [Call.collectDiskUsage "/"] ∧
    schemaDefault "linux" "get_disk_usage" "path" = some (GoAny.string "/") :=
  have h := handleToolCall_disk_path_omitted linuxWorld
    { Name := "get_disk_usage", Arguments := [("verbose", GoAny.bool true)] } rfl rfl
  ⟨⟨rfl, rfl⟩, h.1, h.2.2.2⟩

/-- C5. For every `get_disk_usage` request whose `"path"` argument is present
but holds no string (nil, a boolean, a number, a list, a mapping) or holds the
empty string, the request is handled exactly as the request with `"path"`
removed from its arguments, and `collectDiskUsage` is invoked (once) with the
platform default path. -/
theorem handleToolCall_disk_path_malformed (w : World) (request : CallToolRequest) (v : GoAny)
    (hn : request.Name = "get_disk_usage")
    (hv : request.Arguments.lookup "path" = some v)
    (hbad : (∀ s : String, v ≠ GoAny.string s) ∨ v = GoAny.string "") :
    handleToolCall w request
      = handleToolCall w
          { request with Arguments := request.Arguments.filter (fun kv => kv.1 != "path") } ∧
    (handleToolCall w request).calls = [Call.collectDiskUsage (getDefaultDiskPath w.GOOS)] := by
  have h1 : diskPathArg w request = getDefaultDiskPath w.GOOS :=
    diskPathArg_malformed w request v hv hbad
  have h2 : diskPathArg w
      { request with Arguments := request.Arguments.filter (fun kv => kv.1 != "path") }
      = getDefaultDiskPath w.GOOS :=
    diskPathArg_absent w _ (lookup_filter_ne request.Arguments "path")
  constructor
  · refine handleToolCall_congr w request _ rfl ?_
    have hs2 := switchName_disk w
      { request with Arguments := request.Arguments.filter (fun kv => kv.1 != "path") } hn
    rw [switchName_disk w request hn, hs2, h1, h2]
  · rw [calls_of_switchName_some w request _ _ (switchName_disk w request hn), h1]

/-- The claim C5 for a numeric `"path"`. -/
theorem handleToolCall_disk_path_malformed_witness :
    List.lookup "path" [("path", GoAny.float64 (Float64.mk 0))]
      = some (GoAny.float64 (Float64.mk 0)) ∧
    handleToolCall linuxWorld
        { Name := "get_disk_usage", Arguments := [("path", GoAny.float64 (Float64.mk 0))] }
      = handleToolCall linuxWorld { Name := "get_disk_usage", Arguments := [] } ∧
    (handleToolCall linuxWorld
        { Name := "get_disk_usage", Arguments := [("path", GoAny.float64 (Float64.mk 0))] }).calls
      = [Call.collectDiskUsage "/"] :=
  ⟨rfl,
   handleToolCall_disk_path_malformed linuxWorld
    { Name := "get_disk_usage", Arguments := [("path", GoAny.float64 (Float64.mk 0))] }
    (GoAny.float64 (Float64.mk 0)) rfl rfl
    (Or.inl (fun _ h => GoAny.noConfusion h))⟩

/-- C6. For every `get_disk_usage` request whose `"path"` argument is a
non-empty string `p`, `collectDiskUsage` is invoked (once) with exactly `p`;
and whenever `disk.Usage(p)` succeeds, the collector returns a mapping whose
`"path"` field is `p`, and `handleToolCall` returns the encoding of that
mapping with a nil error. -/
theorem handleToolCall_disk_path_given (w : World) (request : CallToolRequest) (p : String)
    (hn : request.Name = "get_disk_usage")
    (hv : request.Arguments.lookup "path" = some (GoAny.string p)) (hp : p ≠ "") :
    (handleToolCall w request).calls = [Call.collectDiskUsage p] ∧
    ∀ usage : UsageStat, w.diskUsage p = Except.ok usage →
      ∃ fields : Fields,
        collectDiskUsage w p = Outcome.returned (some fields) none ∧
        fields.lookup "path" = some (Metric.str p) ∧
        (handleToolCall w request).outcome
          = Outcome.returned (NewToolResultText (w.jsonMarshal (some fields)).1) none := by
  have h1 : diskPathArg w request = p := diskPathArg_string w request p hv hp
  constructor
  · rw [calls_of_switchName_some w request _ _ (switchName_disk w request hn), h1]
  · intro usage hu
    have hcol : collectDiskUsage w p = Outcome.returned (some
        [("path", Metric.str p),
         ("total_bytes", Metric.uint64 usage.Total),
         ("free_bytes", Metric.uint64 usage.Free),
         ("used_bytes", Metric.uint64 usage.Used),
         ("used_percent", Metric.float64 usage.UsedPercent),
         ("filesystem_type", Metric.str usage.Fstype)]) none := by
      simp [collectDiskUsage, hu]
    refine ⟨_, hcol, ?_, ?_⟩
    · simp [List.lookup_cons]
    · unfold handleToolCall
      rw [switchName_disk w request hn, h1, hcol]

/-- The claim C6 on the root of a Linux host. -/
theorem handleToolCall_disk_path_given_witness :
    (handleToolCall linuxWorld
        { Name := "get_disk_usage", Arguments := [("path", GoAny.string "/")] }).calls
      = [Call.collectDiskUsage "/"] ∧
    ∃ fields : Fields,
      collectDiskUsage linuxWorld "/" = Outcome.returned (some fields) none ∧
      fields.lookup "path" = some (Metric.str "/") ∧
      (handleToolCall linuxWorld
          { Name := "get_disk_usage", Arguments := [("path", GoAny.string "/")] }).outcome
        = Outcome.returned (NewToolResultText (linuxWorld.jsonMarshal (some fields)).1) none :=
  have h := handleToolCall_disk_path_given linuxWorld
    { Name := "get_disk_usage", Arguments := [("path", GoAny.string "/")] } "/" rfl rfl (by decide)
  ⟨h.1, h.2 { Total := 1000, Free := 400, Used := 600,
              UsedPercent := Float64.mk 4633641066610819072, Fstype := "ext4" } rfl⟩

/-! ## C7: undeclared argument keys -/

/-- C7. For every request and every way of removing argument keys that the
catalog does not declare for the request's name (`keep` retains at least the
declared keys: `"path"` for `get_disk_usage`, none for any other name),
`handleToolCall` on the same OS readings does the same with and without those
keys: the same collector call with the same input, the same result and the
same error. -/
theorem handleToolCall_ignores_undeclared (w : World) (request : CallToolRequest)
    (keep : String → Bool)
    (hkeep : ∀ k ∈ declaredKeys w.GOOS request.Name, keep k = true) :
    handleToolCall w
        { request with Arguments := request.Arguments.filter (fun kv => keep kv.1) }
      = handleToolCall w request := by
  refine handleToolCall_congr w _ request rfl ?_
  by_cases hn : request.Name = "get_disk_usage"
  · have hpath : keep "path" = true := by
      apply hkeep
      rw [hn, declaredKeys_disk]
      exact List.mem_singleton.2 rfl
    have hs2 := switchName_disk w
      { request with Arguments := request.Arguments.filter (fun kv => keep kv.1) } hn
    have hd : diskPathArg w
        { request with Arguments := request.Arguments.filter (fun kv => keep kv.1) }
        = diskPathArg w request :=
      diskPathArg_congr w _ request (lookup_filter_keep request.Arguments keep "path" hpath)
    rw [hs2, switchName_disk w request hn, hd]
  · simp [switchName, hn]

/-- The claim C7 for `get_disk_usage` with two undeclared keys next to `"path"`. -/
theorem handleToolCall_ignores_undeclared_witness :
    (∀ k ∈ declaredKeys linuxWorld.GOOS "get_disk_usage", (fun k => k == "path") k = true) ∧
    handleToolCall linuxWorld
        { Name := "get_disk_usage", Arguments := [("path", GoAny.string "/")] }
      = handleToolCall linuxWorld
        { Name := "get_disk_usage"
          Arguments := [("verbose", GoAny.bool true), ("path", GoAny.string "/"),
                        ("unit", GoAny.string "GiB")] } :=
  ⟨by decide,
   handleToolCall_ignores_undeclared linuxWorld
     { Name := "get_disk_usage"
       Arguments := [("verbose", GoAny.bool true), ("path", GoAny.string "/"),
                     ("unit", GoAny.string "GiB")] }
     (fun k => k == "path") (by decide)⟩

/-! ## C8: the catalog and the switch agree -/

/-- C8. The catalog `tools` holds exactly the five names of the switch, pairwise
distinct; `handleToolCall` invokes a collector if and only if the request's
name is a name of the catalog; and for a catalog name it invokes exactly one
collector, exactly once, the one of that name: `collectHostInfo` for
`get_host_info`, `collectCPUInfo` for `get_cpu_info`, `collectMemoryInfo` for
`get_memory_info`, `collectDiskUsage` for `get_disk_usage`, `collectNetworkStats`
for `get_network_stats`. -/
theorem catalog_dispatch_agree (w : World) (request : CallToolRequest) :
    toolNames w.GOOS
      = ["get_host_info", "get_cpu_info", "get_memory_info", "get_disk_usage",
         "get_network_stats"] ∧
    (toolNames w.GOOS).Nodup ∧
    ((handleToolCall w request).calls ≠ [] ↔ request.Name ∈ toolNames w.GOOS) ∧
    (request.Name = "get_host_info" →
      (handleToolCall w request).calls = [Call.collectHostInfo]) ∧
    (request.Name = "get_cpu_info" →
      (handleToolCall w request).calls = [Call.collectCPUInfo]) ∧
    (request.Name = "get_memory_info" →
      (handleToolCall w request).calls = [Call.collectMemoryInfo]) ∧
    (request.Name = "get_disk_usage" →
      (handleToolCall w request).calls = [Call.collectDiskUsage (diskPathArg w request)]) ∧
    (request.Name = "get_network_stats" →
      (handleToolCall w request).calls = [Call.collectNetworkStats]) := by
  refine ⟨rfl, ?_, ?_, ?_, ?_, ?_, ?_, ?_⟩
  · rw [toolNames_eq]
    decide
  · rw [toolNames_eq]
    constructor
    · intro hcalls
      by_contra hn
      rw [handleToolCall_of_switchName_none w request ((switchName_none_iff w request).2 hn)]
        at hcalls
      exact hcalls rfl
    · intro hmem
      cases hsw : switchName w request with
      | none => exact absurd hmem ((switchName_none_iff w request).1 hsw)
      | some co =>
        rw [calls_of_switchName_some w request co.1 co.2 hsw]
        exact List.cons_ne_nil _ _
  · intro hn
    exact calls_of_switchName_some w request _ _ (switchName_host w request hn)
  · intro hn
    exact calls_of_switchName_some w request _ _ (switchName_cpu w request hn)
  · intro hn
    exact calls_of_switchName_some w request _ _ (switchName_memory w request hn)
  · intro hn
    exact calls_of_switchName_some w request _ _ (switchName_disk w request hn)
  · intro hn
    exact calls_of_switchName_some w request _ _ (switchName_network w request hn)

/-! ## C9, C10: a CPU read with no sample -/

theorem collectCPUInfo_no_sample (w : World) (hc : w.cpuPercent = ([], none)) :
    collectCPUInfo w = Outcome.panicked (Fault.indexOutOfRange 0 0) := by
  simp [collectCPUInfo, hc]

/-- C9 (what the code does). For every `get_cpu_info` request, when
`cpu.Percent(0, false)` reports no error and an empty slice, `collectCPUInfo`
evaluates `percent[0]` on it and `handleToolCall` does not return: the
index-out-of-range panic escapes it. -/
theorem handleToolCall_cpu_no_sample_panics (w : World) (request : CallToolRequest)
    (hn : request.Name = "get_cpu_info") (hc : w.cpuPercent = ([], none)) :
    handleToolCall w request
      = { calls := [Call.collectCPUInfo]
          outcome := Outcome.panicked (Fault.indexOutOfRange 0 0) } := by
  unfold handleToolCall
  rw [switchName_cpu w request hn, collectCPUInfo_no_sample w hc]

/-- The panic of C9 on a concrete host. -/
theorem handleToolCall_cpu_no_sample_panics_witness :
    ("get_cpu_info" = "get_cpu_info" ∧ noCPUSampleWorld.cpuPercent = ([], none)) ∧
    handleToolCall noCPUSampleWorld { Name := "get_cpu_info", Arguments := [] }
      = { calls := [Call.collectCPUInfo]
          outcome := Outcome.panicked (Fault.indexOutOfRange 0 0) } :=
  ⟨⟨rfl, rfl⟩,
   handleToolCall_cpu_no_sample_panics noCPUSampleWorld
     { Name := "get_cpu_info", Arguments := [] } rfl rfl⟩

/-- C10 (what the code does). For every `get_cpu_info` request, when
`cpu.Percent(0, false)` reports no error and an empty slice, `handleToolCall`
returns neither a result nor an error: there is no return value at all. -/
theorem handleToolCall_cpu_no_sample_no_return (w : World) (request : CallToolRequest)
    (hn : request.Name = "get_cpu_info") (hc : w.cpuPercent = ([], none)) :
    ¬ ∃ (result : CallToolResult) (err : Option ToolError),
        (handleToolCall w request).outcome = Outcome.returned result err := by
  rintro ⟨result, err, h⟩
  unfold handleToolCall at h
  rw [switchName_cpu w request hn, collectCPUInfo_no_sample w hc] at h
  exact Outcome.noConfusion h

/-- The missing return of C10 on a concrete host. -/
theorem handleToolCall_cpu_no_sample_no_return_witness :
    ("get_cpu_info" = "get_cpu_info" ∧ noCPUSampleWorld.cpuPercent = ([], none)) ∧
    ¬ ∃ (result : CallToolResult) (err : Option ToolError),
        (handleToolCall noCPUSampleWorld
          { Name := "get_cpu_info", Arguments := [("path", GoAny.nil)] }).outcome
          = Outcome.returned result err :=
  ⟨⟨rfl, rfl⟩,
   handleToolCall_cpu_no_sample_no_return noCPUSampleWorld
     { Name := "get_cpu_info", Arguments := [("path", GoAny.nil)] } rfl rfl⟩

/-! ## Where the handler does return -/

/-- The guard of `collectNetworkStats` keeps `counters[0]` in range: the
collector always returns. -/
theorem collectNetworkStats_returns (w : World) :
    ∃ (result : Option Fields) (err : Option OSError),
      collectNetworkStats w = Outcome.returned result err := by
  unfold collectNetworkStats
  rcases hc : w.netIOCounters with ⟨counters, err⟩
  cases counters with
  | nil => exact ⟨none, err, by simp⟩
  | cons c rest =>
    cases err with
    | some e => exact ⟨none, some e, by simp⟩
    | none =>
      exact ⟨some
        [("bytes_sent", Metric.uint64 c.BytesSent),
         ("bytes_recv", Metric.uint64 c.BytesRecv),
         ("packets_sent", Metric.uint64 c.PacketsSent),
         ("packets_recv", Metric.uint64 c.PacketsRecv)], none, by simp⟩

/-- `collectCPUInfo` returns unless the read gives no error and no sample. -/
theorem collectCPUInfo_returns (w : World) (h : w.cpuPercent ≠ ([], none)) :
    ∃ (result : Option Fields) (err : Option OSError),
      collectCPUInfo w = Outcome.returned result err := by
  unfold collectCPUInfo
  rcases hc : w.cpuPercent with ⟨percent, err⟩
  cases err with
  | some e => exact ⟨none, some e, rfl⟩
  | none =>
    cases percent with
    | nil => exact absurd hc h
    | cons p0 rest => exact ⟨_, none, rfl⟩

/-- Away from the panic of `collectCPUInfo`, `handleToolCall` returns, and its
return has one of two shapes: the empty result with a non-nil error, or a nil
error with a result of exactly one text item, the bytes `json.Marshal` gave
for the collector's mapping (its error is discarded by the code). -/
theorem handleToolCall_returns_one_of (w : World) (request : CallToolRequest)
    (h : request.Name = "get_cpu_info" → w.cpuPercent ≠ ([], none)) :
    (∃ e : ToolError,
      (handleToolCall w request).outcome = Outcome.returned CallToolResult.empty (some e)) ∨
    (∃ result : Option Fields,
      (handleToolCall w request).outcome
        = Outcome.returned (NewToolResultText (w.jsonMarshal result).1) none) := by
  have key : ∀ (call : Call) (out : Outcome (Option Fields) OSError),
      switchName w request = some (call, out) →
      (∃ (result : Option Fields) (err : Option OSError), out = Outcome.returned result err) →
      (∃ e : ToolError,
        (handleToolCall w request).outcome = Outcome.returned CallToolResult.empty (some e)) ∨
      (∃ result : Option Fields,
        (handleToolCall w request).outcome
          = Outcome.returned (NewToolResultText (w.jsonMarshal result).1) none) := by
    rintro call out hsw ⟨result, err, rfl⟩
    unfold handleToolCall
    rw [hsw]
    cases err with
    | some e => exact Or.inl ⟨_, rfl⟩
    | none => exact Or.inr ⟨result, rfl⟩
  by_cases h1 : request.Name = "get_host_info"
  · refine key _ _ (switchName_host w request h1) ?_
    unfold collectHostInfo
    cases w.hostInfo with
    | error e => exact ⟨_, _, rfl⟩
    | ok info => exact ⟨_, _, rfl⟩
  by_cases h2 : request.Name = "get_cpu_info"
  · exact key _ _ (switchName_cpu w request h2) (collectCPUInfo_returns w (h h2))
  by_cases h3 : request.Name = "get_memory_info"
  · refine key _ _ (switchName_memory w request h3) ?_
    unfold collectMemoryInfo
    cases w.virtualMemory with
    | error e => exact ⟨_, _, rfl⟩
    | ok vmem => exact ⟨_, _, rfl⟩
  by_cases h4 : request.Name = "get_disk_usage"
  · refine key _ _ (switchName_disk w request h4) ?_
    unfold collectDiskUsage
    cases w.diskUsage (diskPathArg w request) with
    | error e => exact ⟨_, _, rfl⟩
    | ok usage => exact ⟨_, _, rfl⟩
  by_cases h5 : request.Name = "get_network_stats"
  · exact key _ _ (switchName_network w request h5) (collectNetworkStats_returns w)
  · left
    refine ⟨ToolError.ErrInternalError, ?_⟩
    rw [handleToolCall_of_switchName_none w request
      ((switchName_none_iff w request).2 (by simp [caseNames, h1, h2, h3, h4, h5]))]

end McpGopsutil
